import Mathlib

/-!
Verification of the symbolic tag algebra implemented in
`infinigen/core/tags.py`: the tag taxonomy (enum vocabulary tags, string
tags, generator tags, negation wrappers, variable and specific-object
tags), decomposition of tag sets into positive/negative parts,
contradiction detection, the `implies` / `satisfies` / `difference`
relation operators, and the `to_tag` / `to_string` conversions.

Python `set[Tag]` values are modelled as `Finset Tag`; Python strings as
`String` (with the character-level operations the code performs spelled
out on `String.data`); exceptions as `Except PyErr`.
-/

set_option maxHeartbeats 1600000

deriving instance DecidableEq for Except

namespace tags

/-- Members of the `Semantics` vocabulary enum.  `AccessSit` is declared in
the Python source with the same value `"access-stand-near"` as
`AccessStandingNear`, which makes it an enum *alias* of that member rather
than a distinct member; it therefore has no constructor here, only an
extra row in `semanticsNameTable`. -/
inductive Semantics
  | Room | Object | Cutter
  | Kitchen | Bedroom | LivingRoom | Closet | Hallway | Bathroom | Garage
  | Balcony | DiningRoom | Utility | StaircaseRoom | Warehouse | Office
  | MeetingRoom | OpenOffice | BreakRoom | Restroom | FactoryOffice
  | Root | New | RoomNode | GroundFloor | SecondFloor | ThirdFloor
  | Exterior | Staircase | Visited | RoomContour
  | Furniture | FloorMat | WallDecoration | HandheldItem
  | Storage | Seating | LoungeSeating | Table | Bathing | SideTable
  | Watchable | Desk | Bed | Sink | CeilingLight | Lighting
  | KitchenCounter | KitchenAppliance
  | TableDisplayItem | OfficeShelfItem | KitchenCounterItem | FoodPantryItem
  | BathroomItem | ShelfTrinket | Dishware | Cookware | Utensils
  | ClothDrapeItem
  | AccessTop | AccessFront | AccessAnySide | AccessAllSides
  | AccessStandingNear | AccessOpenDoor | AccessHand
  | Chair | Window | Open | Entrance | Door
  | RealPlaceholder | OversizePlaceholder | AssetAsPlaceholder
  | AssetPlaceholderForChildren | PlaceholderBBox | SingleGenerator
  | NoRotation | NoCollision | NoChildren
  deriving DecidableEq

/-- The `value` string of each `Semantics` member, as written in the enum
body of the Python source. -/
def Semantics.value : Semantics → String
  | .Room => "room"
  | .Object => "object"
  | .Cutter => "cutter"
  | .Kitchen => "kitchen"
  | .Bedroom => "bedroom"
  | .LivingRoom => "living-room"
  | .Closet => "closet"
  | .Hallway => "hallway"
  | .Bathroom => "bathroom"
  | .Garage => "garage"
  | .Balcony => "balcony"
  | .DiningRoom => "dining-room"
  | .Utility => "utility"
  | .StaircaseRoom => "staircase-room"
  | .Warehouse => "warehouse"
  | .Office => "office"
  | .MeetingRoom => "meeting-room"
  | .OpenOffice => "open-office"
  | .BreakRoom => "break-room"
  | .Restroom => "restroom"
  | .FactoryOffice => "factory-office"
  | .Root => "root"
  | .New => "new"
  | .RoomNode => "room-node"
  | .GroundFloor => "ground"
  | .SecondFloor => "second-floor"
  | .ThirdFloor => "third-floor"
  | .Exterior => "exterior"
  | .Staircase => "staircase"
  | .Visited => "visited"
  | .RoomContour => "room-contour"
  | .Furniture => "furniture"
  | .FloorMat => "FloorMat"
  | .WallDecoration => "wall-decoration"
  | .HandheldItem => "handheld-item"
  | .Storage => "storage"
  | .Seating => "seatng"
  | .LoungeSeating => "lounge-seating"
  | .Table => "table"
  | .Bathing => "bathing"
  | .SideTable => "side-table"
  | .Watchable => "watchable"
  | .Desk => "desk"
  | .Bed => "bed"
  | .Sink => "sink"
  | .CeilingLight => "ceiling-light"
  | .Lighting => "lighting"
  | .KitchenCounter => "kitchen-counter"
  | .KitchenAppliance => "kitchen-appliance"
  | .TableDisplayItem => "table-display-item"
  | .OfficeShelfItem => "office-shelf-item"
  | .KitchenCounterItem => "kitchen-counter-item"
  | .FoodPantryItem => "food-pantry"
  | .BathroomItem => "bathroom-item"
  | .ShelfTrinket => "shelf-trinket"
  | .Dishware => "dishware"
  | .Cookware => "cookware"
  | .Utensils => "utensils"
  | .ClothDrapeItem => "cloth-drape"
  | .AccessTop => "access-top"
  | .AccessFront => "access-front"
  | .AccessAnySide => "access-any-side"
  | .AccessAllSides => "access-all-sides"
  | .AccessStandingNear => "access-stand-near"
  | .AccessOpenDoor => "access-open-door"
  | .AccessHand => "access-with-hand"
  | .Chair => "chair"
  | .Window => "window"
  | .Open => "open"
  | .Entrance => "entrance"
  | .Door => "door"
  | .RealPlaceholder => "real-placeholder"
  | .OversizePlaceholder => "oversize-placeholder"
  | .AssetAsPlaceholder => "asset-as-placeholder"
  | .AssetPlaceholderForChildren => "asset-placeholder-for-children"
  | .PlaceholderBBox => "placeholder-bbox"
  | .SingleGenerator => "single-generator"
  | .NoRotation => "no-rotation"
  | .NoCollision => "no-collision"
  | .NoChildren => "no-children"

/-- The name → member map of the `Semantics` enum, in declaration order:
this is the `_member_map_` that Python's `Semantics[name]` consults.  It
contains one row per member name, plus the alias row `"AccessSit"`,
which Python maps to the canonical member `AccessStandingNear`. -/
def semanticsNameTable : List (String × Semantics) :=
  [("Room", .Room), ("Object", .Object), ("Cutter", .Cutter),
   ("Kitchen", .Kitchen), ("Bedroom", .Bedroom), ("LivingRoom", .LivingRoom),
   ("Closet", .Closet), ("Hallway", .Hallway), ("Bathroom", .Bathroom),
   ("Garage", .Garage), ("Balcony", .Balcony), ("DiningRoom", .DiningRoom),
   ("Utility", .Utility), ("StaircaseRoom", .StaircaseRoom),
   ("Warehouse", .Warehouse), ("Office", .Office),
   ("MeetingRoom", .MeetingRoom), ("OpenOffice", .OpenOffice),
   ("BreakRoom", .BreakRoom), ("Restroom", .Restroom),
   ("FactoryOffice", .FactoryOffice),
   ("Root", .Root), ("New", .New), ("RoomNode", .RoomNode),
   ("GroundFloor", .GroundFloor), ("SecondFloor", .SecondFloor),
   ("ThirdFloor", .ThirdFloor), ("Exterior", .Exterior),
   ("Staircase", .Staircase), ("Visited", .Visited),
   ("RoomContour", .RoomContour),
   ("Furniture", .Furniture), ("FloorMat", .FloorMat),
   ("WallDecoration", .WallDecoration), ("HandheldItem", .HandheldItem),
   ("Storage", .Storage), ("Seating", .Seating),
   ("LoungeSeating", .LoungeSeating), ("Table", .Table),
   ("Bathing", .Bathing), ("SideTable", .SideTable),
   ("Watchable", .Watchable), ("Desk", .Desk), ("Bed", .Bed),
   ("Sink", .Sink), ("CeilingLight", .CeilingLight),
   ("Lighting", .Lighting), ("KitchenCounter", .KitchenCounter),
   ("KitchenAppliance", .KitchenAppliance),
   ("TableDisplayItem", .TableDisplayItem),
   ("OfficeShelfItem", .OfficeShelfItem),
   ("KitchenCounterItem", .KitchenCounterItem),
   ("FoodPantryItem", .FoodPantryItem), ("BathroomItem", .BathroomItem),
   ("ShelfTrinket", .ShelfTrinket), ("Dishware", .Dishware),
   ("Cookware", .Cookware), ("Utensils", .Utensils),
   ("ClothDrapeItem", .ClothDrapeItem),
   ("AccessTop", .AccessTop), ("AccessFront", .AccessFront),
   ("AccessAnySide", .AccessAnySide), ("AccessAllSides", .AccessAllSides),
   ("AccessStandingNear", .AccessStandingNear),
   ("AccessSit", .AccessStandingNear),
   ("AccessOpenDoor", .AccessOpenDoor), ("AccessHand", .AccessHand),
   ("Chair", .Chair), ("Window", .Window), ("Open", .Open),
   ("Entrance", .Entrance), ("Door", .Door),
   ("RealPlaceholder", .RealPlaceholder),
   ("OversizePlaceholder", .OversizePlaceholder),
   ("AssetAsPlaceholder", .AssetAsPlaceholder),
   ("AssetPlaceholderForChildren", .AssetPlaceholderForChildren),
   ("PlaceholderBBox", .PlaceholderBBox),
   ("SingleGenerator", .SingleGenerator), ("NoRotation", .NoRotation),
   ("NoCollision", .NoCollision), ("NoChildren", .NoChildren)]

/-- `Semantics[s]` — exact-name lookup in the member map (`none` models the
`KeyError` case). -/
def semanticsFromName (s : String) : Option Semantics :=
  (semanticsNameTable.find? (fun p => p.1 == s)).map Prod.snd

/-- Members of the `Subpart` vocabulary enum. -/
inductive Subpart
  | SupportSurface | Interior | Visible | Bottom | Top | Side | Back
  | Front | Ceiling | Wall | StaircaseWall
  deriving DecidableEq

/-- The `value` string of each `Subpart` member. -/
def Subpart.value : Subpart → String
  | .SupportSurface => "support"
  | .Interior => "interior"
  | .Visible => "visible"
  | .Bottom => "bottom"
  | .Top => "top"
  | .Side => "side"
  | .Back => "back"
  | .Front => "front"
  | .Ceiling => "ceiling"
  | .Wall => "wall"
  | .StaircaseWall => "staircase-wall"

/-- The name → member map of the `Subpart` enum (no aliases). -/
def subpartNameTable : List (String × Subpart) :=
  [("SupportSurface", .SupportSurface), ("Interior", .Interior),
   ("Visible", .Visible), ("Bottom", .Bottom), ("Top", .Top),
   ("Side", .Side), ("Back", .Back), ("Front", .Front),
   ("Ceiling", .Ceiling), ("Wall", .Wall),
   ("StaircaseWall", .StaircaseWall)]

/-- `Subpart[s]` — exact-name lookup in the member map. -/
def subpartFromName (s : String) : Option Subpart :=
  (subpartNameTable.find? (fun p => p.1 == s)).map Prod.snd

/-- The tag taxonomy of `tags.py`.
* `semanticsTag` / `subpartTag`: the enum tags (`EnumTag` members).
* `stringTag`: `StringTag` holds a free-form `desc`.  The Python class
  defines no `__eq__`/`__hash__` (unlike the frozen-dataclass tag kinds),
  so Python compares `StringTag` objects by object identity; the `id`
  field models that allocation identity.  On Python-reachable values the
  identity determines the stored text, so structural equality of
  `(id, desc)` coincides with Python's identity equality.
* `fromGenerator`: `FromGenerator` is bound to a generator class; the
  class is identified here by its `__name__` string, which is also what
  `to_tag` matches against the factory context.
* `negated`: the `Negated` wrapper.  Its Python constructor asserts that
  the wrapped tag is not itself a `Negated`; the inductive type does not
  bake that in, so code paths that run the constructor go through
  `mkNegated` below, and theorems that assume the invariant take it as a
  hypothesis.
* `variableTag` / `specificObject`: the named identity-binding tags. -/
inductive Tag
  | semanticsTag (m : Semantics)
  | subpartTag (p : Subpart)
  | stringTag (id : Nat) (desc : String)
  | fromGenerator (name : String)
  | negated (tag : Tag)
  | variableTag (name : String)
  | specificObject (name : String)
  deriving DecidableEq

/-- `isinstance(t, Negated)`. -/
def Tag.isNegated : Tag → Bool
  | .negated _ => true
  | _ => false

/-- The `.tag` field access on a `Negated` value (identity on the other
kinds, where the code never reads it). -/
def Tag.inner : Tag → Tag
  | .negated t => t
  | t => t

/-- `isinstance(t, FromGenerator)`. -/
def Tag.isFromGenerator : Tag → Bool
  | .fromGenerator _ => true
  | _ => false

/-- `isinstance(t, SpecificObject | Variable)`. -/
def Tag.isIdentityTag : Tag → Bool
  | .variableTag _ => true
  | .specificObject _ => true
  | _ => false

/-- `Tag.__neg__` / `Negated.__neg__`: the unary `-` operator.  A
`Negated` value un-negates to its inner tag; every other tag is wrapped
in `Negated` (the constructor assertion cannot fire there, since the
receiver of `Tag.__neg__` is not a `Negated`). -/
def Tag.pyNeg : Tag → Tag
  | .negated t => t
  | t => .negated t

/-- `decompose_tags`: each `Negated` element contributes its inner tag to
the negative part, every other element contributes itself to the positive
part. -/
def decompose_tags (tags : Finset Tag) : Finset Tag × Finset Tag :=
  (tags.filter (fun t => t.isNegated = false),
   (tags.filter (fun t => t.isNegated = true)).image Tag.inner)

/-- `contradiction`: true iff positive and negative parts meet, or more
than one `FromGenerator` is in the positive part, or more than one
element of the original set is a `Variable` or `SpecificObject`. -/
def contradiction (tags : Finset Tag) : Bool :=
  let pos := (decompose_tags tags).1
  let neg := (decompose_tags tags).2
  if (pos ∩ neg).Nonempty then true
  else if 1 < (pos.filter (fun t => t.isFromGenerator = true)).card then true
  else if 1 < (tags.filter (fun t => t.isIdentityTag = true)).card then true
  else false

/-- `implies(t1, t2)`. -/
def implies (t1 t2 : Finset Tag) : Bool :=
  !contradiction t1
    && decide ((decompose_tags t2).1 ⊆ (decompose_tags t1).1)
    && decide ((decompose_tags t2).2 ⊆ (decompose_tags t1).2)

/-- `satisfies(t1, t2)` (`not s` on a Python set is "s is empty"). -/
def satisfies (t1 t2 : Finset Tag) : Bool :=
  decide ((decompose_tags t2).1 ⊆ (decompose_tags t1).1)
    && decide ((decompose_tags t1).2 ∩ (decompose_tags t2).1 = ∅)
    && decide ((decompose_tags t2).2 ∩ (decompose_tags t1).1 = ∅)

/-- `difference(t1, t2)`.  The final comprehension re-wraps every residual
negative tag with the `Negated` constructor; its double-negation
assertion can fire only if an element of `t1` or `t2` nests a `Negated`
inside a `Negated`, which the constructor invariant rules out for every
Python-reachable set, so the re-wrap is modelled unchecked. -/
def difference (t1 t2 : Finset Tag) : Finset Tag :=
  let p1 := (decompose_tags t1).1
  let n1 := (decompose_tags t1).2
  let p2 := (decompose_tags t2).1
  let n2 := (decompose_tags t2).2
  let pos := p1 ∪ (n2 \ n1)
  let neg := n1 ∪ (p2 \ p1)
  pos ∪ neg.image Tag.negated

/-- The Python exceptions the conversion functions can raise.  Only the
unresolved-tag-name `ValueError` message is modelled in full (a claim
inspects it); the other messages are abbreviated. -/
inductive PyErr
  | valueError (msg : String)
  | attributeError
  | assertionError
  deriving DecidableEq

/-- Construction of a `Negated` value, including the `__post_init__`
assertion "dont construct double negative tags". -/
def mkNegated (t : Tag) : Except PyErr Tag :=
  if t.isNegated then .error .assertionError else .ok (.negated t)

/-- `s.startswith("-")`. -/
def startsWithDash (s : String) : Bool :=
  match s.data with
  | [] => false
  | c :: _ => c == '-'

/-- The two characters removed by the source's quote strip: the double
quote and the single quote (character code 39). -/
def isQuoteChar (c : Char) : Bool :=
  c == '"' || c == Char.ofNat 39

/-- Python's `s.strip` over the quote characters: remove them from both
ends, repeatedly. -/
def stripQuotes (s : String) : String :=
  String.mk (((s.data.dropWhile isQuoteChar).reverse.dropWhile
    isQuoteChar).reverse)

/-- `sub` occurs at the start of the second list. -/
def leadsWith : List Char → List Char → Bool
  | [], _ => true
  | _ :: _, [] => false
  | a :: as, b :: bs => (a == b) && leadsWith as bs

/-- `sub` occurs somewhere in the first list. -/
def hasSub : List Char → List Char → Bool
  | [], sub => leadsWith sub []
  | c :: rest, sub => leadsWith sub (c :: rest) || hasSub rest sub

/-- Substring containment on strings (`sub in s` in Python). -/
def containsStr (s sub : String) : Bool :=
  hasSub s.data sub.data

/-- Python `repr` of a simple string: the text between single quotes
(escaping of special characters inside `s` is not modelled; claims only
search this text for vocabulary names). -/
def pyRepr (s : String) : String :=
  (Char.ofNat 39).toString ++ s ++ (Char.ofNat 39).toString

/-- The message of the unresolved-tag-name `ValueError`, with the f-string
`{s=}` expanded: it names both searched vocabularies. -/
def unresolvedMsg (s : String) : String :=
  "to_tag got s=" ++ pyRepr s ++
    " but could not resolve it. Please see tags.Semantics and tags.Subpart for available tag strings"

/-- The factory-context match `next((f for f in fac_context.keys() if
f.__name__ == s), None)`: the context is the list of factory class names
in dictionary order (`none` models `fac_context=None`). -/
def ctxFind (ctx : Option (List String)) (s : String) : Option String :=
  match ctx with
  | none => none
  | some fs => fs.find? (fun f => f == s)

/-- The non-dash path of `to_tag` on text `s`: factory-name match when a
context is supplied, then quote stripping, then exact-name lookup first in
`Semantics` and then in `Subpart`, and otherwise the unresolved-name
`ValueError`. -/
def resolveName (s : String) (ctx : Option (List String)) : Except PyErr Tag :=
  match ctxFind ctx s with
  | some f => .ok (.fromGenerator f)
  | none =>
    match semanticsFromName (stripQuotes s) with
    | some m => .ok (.semanticsTag m)
    | none =>
      match subpartFromName (stripQuotes s) with
      | some p => .ok (.subpartTag p)
      | none => .error (.valueError (unresolvedMsg (stripQuotes s)))

/-- `to_tag` restricted to text input (the Tag-passthrough and
generator-class branches of the source are omitted: the claims concern
text), recursing on the character list.  A leading `-` recurses on the
remainder and wraps the result through the checked `Negated` constructor;
note the source's `Negated(to_tag(s[1:]))` passes **no** factory context
to the recursive call. -/
def to_tagAux : List Char → Option (List String) → Except PyErr Tag
  | [], ctx => resolveName (String.mk []) ctx
  | c :: rest, ctx =>
    if c == '-' then
      match to_tagAux rest none with
      | .error e => .error e
      | .ok t => mkNegated t
    else resolveName (String.mk (c :: rest)) ctx

/-- `to_tag(s, fac_context)` on text input. -/
def to_tag (s : String) (ctx : Option (List String)) : Except PyErr Tag :=
  to_tagAux s.data ctx

/-- `to_string` on a tag (the `str` passthrough branch is omitted: the
claims concern tag inputs).  The `FromGenerator` branch of the source
executes `return tag.__name__`, but a `FromGenerator` *instance* has no
`__name__` attribute — `__name__` lives on classes, and neither the
dataclass nor its bases define it as an instance attribute — so that
branch raises `AttributeError` instead of returning the generator class
name `tag.generator.__name__`. -/
def to_string : Tag → Except PyErr String
  | .semanticsTag m => .ok m.value
  | .subpartTag p => .ok p.value
  | .stringTag _ desc => .ok desc
  | .fromGenerator _ => .error .attributeError
  | .negated _ => .error (.valueError "Negated tag is not allowed here")
  | .variableTag _ => .error (.valueError "to_string unhandled")
  | .specificObject _ => .error (.valueError "to_string unhandled")

/-- `contradiction` unfolded into the disjunction of its three checks. -/
theorem contradiction_iff (s : Finset Tag) :
    contradiction s = true ↔
      (((decompose_tags s).1 ∩ (decompose_tags s).2).Nonempty ∨
       1 < ((decompose_tags s).1.filter
              (fun t => t.isFromGenerator = true)).card ∨
       1 < (s.filter (fun t => t.isIdentityTag = true)).card) := by
  by_cases h1 : ((decompose_tags s).1 ∩ (decompose_tags s).2).Nonempty
  · simp [contradiction, h1]
  · by_cases h2 : 1 < ((decompose_tags s).1.filter
        (fun t => t.isFromGenerator = true)).card
    · simp [contradiction, h1, h2]
    · by_cases h3 : 1 < (s.filter (fun t => t.isIdentityTag = true)).card
      · simp [contradiction, h1, h2, h3]
      · simp [contradiction, h1, h2, h3]

/-- Wrapping with `pyNeg` is wrapping with `negated` on non-negated tags. -/
theorem pyNeg_eq_negated (t : Tag) (h : t.isNegated = false) :
    t.pyNeg = .negated t := by
  cases t <;> simp_all [Tag.pyNeg, Tag.isNegated]

/-- The lookup path of `to_tag` only produces generator or vocabulary
tags, never a `Negated`. -/
theorem resolveName_not_negated (s : String) (ctx : Option (List String))
    (t : Tag) (h : resolveName s ctx = .ok t) : t.isNegated = false := by
  unfold resolveName at h
  split at h
  · injection h with h; subst h; rfl
  · split at h
    · injection h with h; subst h; rfl
    · split at h
      · injection h with h; subst h; rfl
      · exact absurd h (by simp)

/-- On text without a leading dash, `to_tag` is exactly the lookup path. -/
theorem to_tag_eq_resolveName (s : String) (ctx : Option (List String))
    (h : startsWithDash s = false) : to_tag s ctx = resolveName s ctx := by
  unfold startsWithDash at h
  unfold to_tag
  cases hs : s with
  | mk l =>
    cases l with
    | nil => simp [to_tagAux]
    | cons c rest =>
      rw [hs] at h
      simp only [String.data] at h ⊢
      simp [to_tagAux, h]

/-- A substring of the right part of a concatenation is a substring of
the whole. -/
theorem hasSub_append_right (a b sub : List Char)
    (h : hasSub b sub = true) : hasSub (a ++ b) sub = true := by
  induction a with
  | nil => simpa using h
  | cons c rest ih => simp [hasSub, ih]

/-- The unresolved-tag message always names both searched vocabularies. -/
theorem unresolvedMsg_names_both (s : String) :
    containsStr (unresolvedMsg s) "Semantics" = true ∧
    containsStr (unresolvedMsg s) "Subpart" = true := by
  unfold containsStr unresolvedMsg
  constructor <;>
    (rw [String.data_append]; exact hasSub_append_right _ _ _ (by decide))

/-- The representation invariant the `Negated` constructor enforces: a
`Negated` never wraps another `Negated`. -/
def Tag.wellFormed : Tag → Bool
  | .negated u => !u.isNegated
  | _ => true

/-- C1: evaluating the code at the failing input `T = {Kitchen}` (a
non-empty set): `difference(T, T)` returns `T` itself — the `n2 - n1`
and `p2 - p1` residuals are empty when `t1 == t2` — and `contradiction`
on the result is `false`, although the claim, and the docstring of
`difference` itself, promise a self-contradictory result for an empty
difference. -/
theorem c1_difference_self_not_contradictory :
    difference {Tag.semanticsTag .Kitchen} {Tag.semanticsTag .Kitchen}
        = {Tag.semanticsTag .Kitchen} ∧
      contradiction
        (difference {Tag.semanticsTag .Kitchen} {Tag.semanticsTag .Kitchen})
        = false := by
  decide

/-- C2 counterexample: the set `{Variable "x", Negated(Variable "y")}`
carries two Variable-kind tags across the two polarities, so the claim
says `contradiction` is true on it; the code counts only unwrapped
elements (`isinstance` on the `Negated` wrapper is false), finds one, and
returns false. -/
theorem c2_counterexample :
    contradiction {Tag.variableTag "x", Tag.negated (Tag.variableTag "y")}
      = false := by
  decide

/-- C2 (amended): `contradiction` returns true when more than one
*element* of the set is itself a tag of kind Variable or SpecificObject;
a tag of one of these kinds wrapped in a `Negated` does not count toward
the limit. -/
theorem c2_identity_limit (s : Finset Tag)
    (h : 1 < (s.filter (fun t => t.isIdentityTag = true)).card) :
    contradiction s = true :=
  (contradiction_iff s).mpr (Or.inr (Or.inr h))

/-- C2 witness: two unwrapped variables do contradict. -/
theorem c2_identity_limit_witness :
    contradiction {Tag.variableTag "x", Tag.variableTag "y"} = true :=
  c2_identity_limit {Tag.variableTag "x", Tag.variableTag "y"} (by decide)

/-- C3: `to_string` on every `FromGenerator` tag fails with
`AttributeError` — the branch returns `tag.__name__`, an attribute the
instance does not have — instead of returning the display name of the
bound generator as documented. -/
theorem c3_to_string_fromGenerator_raises (g : String) :
    to_string (Tag.fromGenerator g) = .error .attributeError := rfl

/-- C4 counterexample: two `StringTag` objects with the same description
text "a" but distinct identities are not equal, so description-text
equality does not characterise `StringTag` equality. -/
theorem c4_counterexample :
    Tag.stringTag 0 "a" ≠ Tag.stringTag 1 "a" := by
  decide

/-- C4 (amended): `StringTag` defines no field-based equality (unlike the
frozen-dataclass tag kinds), so two `StringTag` values are equal iff they
are the same object — same identity and hence same stored text; equal
description text alone does not make them equal. -/
theorem c4_stringTag_eq_iff (i j : Nat) (d e : String) :
    Tag.stringTag i d = Tag.stringTag j e ↔ (i = j ∧ d = e) := by
  simp

/-- C5: `satisfies(t1, t2)` is true iff `positive(t1) ⊇ positive(t2)`,
`negative(t1) ∩ positive(t2) = ∅` and `negative(t2) ∩ positive(t1) = ∅`;
it does not require `negative(t1) ⊇ negative(t2)`, and indeed `satisfies`
and `implies` differ on a concrete pair. -/
theorem c5_satisfies_iff :
    (∀ t1 t2 : Finset Tag, satisfies t1 t2 = true ↔
      ((decompose_tags t2).1 ⊆ (decompose_tags t1).1 ∧
       (decompose_tags t1).2 ∩ (decompose_tags t2).1 = ∅ ∧
       (decompose_tags t2).2 ∩ (decompose_tags t1).1 = ∅)) ∧
    (∃ t1 t2 : Finset Tag,
      satisfies t1 t2 = true ∧ implies t1 t2 = false) := by
  constructor
  · intro t1 t2
    simp [satisfies, Bool.and_eq_true, decide_eq_true_eq, and_assoc]
  · exact ⟨∅, {Tag.negated (Tag.semanticsTag .Kitchen)}, by decide, by decide⟩

/-- C6: `implies(t1, t2)` is true iff `t1` is not self-contradictory,
`positive(t1) ⊇ positive(t2)` and `negative(t1) ⊇ negative(t2)` — the
consistency of `t2` plays no role — and consequently `implies(T, T)`
holds for every non-contradictory `T`. -/
theorem c6_implies_iff :
    (∀ t1 t2 : Finset Tag, implies t1 t2 = true ↔
      (contradiction t1 = false ∧
       (decompose_tags t2).1 ⊆ (decompose_tags t1).1 ∧
       (decompose_tags t2).2 ⊆ (decompose_tags t1).2)) ∧
    (∀ T : Finset Tag, contradiction T = false → implies T T = true) := by
  constructor
  · intro t1 t2
    simp [implies, Bool.and_eq_true, decide_eq_true_eq, Bool.not_eq_true',
      and_assoc]
  · intro T h
    simp [implies, h, Finset.Subset.refl]

/-- C6 witness: a concrete non-contradictory `T` with `implies(T, T)`. -/
theorem c6_implies_iff_witness :
    implies {Tag.semanticsTag .Kitchen} {Tag.semanticsTag .Kitchen} = true :=
  c6_implies_iff.2 {Tag.semanticsTag .Kitchen} (by decide)

/-- C7: negation is an involution: for every non-negated tag `x`,
`-(-x) = x` and `-x ≠ x`; and negating a `Negated` returns its wrapped
inner tag directly, never a double wrapper. -/
theorem c7_negation_involution (x : Tag) (h : x.isNegated = false) :
    Tag.pyNeg (Tag.pyNeg x) = x ∧ Tag.pyNeg x ≠ x ∧
      (∀ t : Tag, Tag.pyNeg (Tag.negated t) = t) := by
  refine ⟨?_, ?_, fun t => rfl⟩
  · cases x <;> simp_all [Tag.pyNeg, Tag.isNegated]
  · cases x <;> simp_all [Tag.pyNeg, Tag.isNegated]

/-- C7 witness: the involution at the concrete tag `Kitchen`. -/
theorem c7_negation_involution_witness :
    Tag.pyNeg (Tag.pyNeg (Tag.semanticsTag .Kitchen))
        = Tag.semanticsTag .Kitchen ∧
      Tag.pyNeg (Tag.semanticsTag .Kitchen) ≠ Tag.semanticsTag .Kitchen ∧
      (∀ t : Tag, Tag.pyNeg (Tag.negated t) = t) :=
  c7_negation_involution (Tag.semanticsTag .Kitchen) (by decide)

/-- C8 counterexample: at `s = "-Kitchen"` the claim fails:
`to_tag("--Kitchen")` hits the double-negation construction assertion
(the code builds `Negated(to_tag(s[1:]))` directly instead of calling
negate), while `negate(to_tag("-Kitchen"))` is the un-negated Kitchen
tag. -/
theorem c8_counterexample :
    to_tag "--Kitchen" none = .error .assertionError ∧
      Except.map Tag.pyNeg (to_tag "-Kitchen" none)
        = .ok (Tag.semanticsTag .Kitchen) ∧
      to_tag "--Kitchen" none
        ≠ Except.map Tag.pyNeg (to_tag "-Kitchen" none) := by
  decide

/-- C8 (amended): a leading "-" negates the remainder whenever the
remainder does not itself begin with "-": `to_tag("-" + s)` equals
`negate` mapped over `to_tag(s)` (errors propagate unchanged).  When the
remainder resolves to a `Negated` tag, `to_tag` instead fails with the
double-negation construction assertion rather than un-negating. -/
theorem c8_dash_negates (s : String) (h : startsWithDash s = false) :
    to_tag ("-" ++ s) none = Except.map Tag.pyNeg (to_tag s none) := by
  have hdata : ("-" ++ s).data = '-' :: s.data := by
    rw [String.data_append]; rfl
  unfold to_tag
  rw [hdata]
  simp only [to_tagAux]
  rw [if_pos (by rfl)]
  cases hts : to_tagAux s.data none with
  | error e => simp [Except.map]
  | ok t =>
    have hok : to_tag s none = .ok t := by unfold to_tag; exact hts
    have hnn : t.isNegated = false := by
      rw [to_tag_eq_resolveName s none h] at hok
      exact resolveName_not_negated s none t hok
    simp [Except.map, mkNegated, hnn, pyNeg_eq_negated t hnn]

/-- C8 witness: the dash rule at the concrete remainder "Kitchen". -/
theorem c8_dash_negates_witness :
    to_tag ("-" ++ "Kitchen") none
      = Except.map Tag.pyNeg (to_tag "Kitchen" none) :=
  c8_dash_negates "Kitchen" (by decide)

/-- C9: on text without a leading dash and with no factory-name match,
`to_tag` strips surrounding quotes and looks the text up by exact name,
trying `Semantics` before `Subpart`: a hit returns the vocabulary member,
and a double miss raises the unresolved-tag-name `ValueError` whose
message names both searched vocabularies. -/
theorem c9_vocabulary_lookup (s : String) (ctx : Option (List String))
    (hdash : startsWithDash s = false) (hctx : ctxFind ctx s = none) :
    (semanticsFromName (stripQuotes s) = none →
      subpartFromName (stripQuotes s) = none →
      to_tag s ctx = .error (.valueError (unresolvedMsg (stripQuotes s))) ∧
      containsStr (unresolvedMsg (stripQuotes s)) "Semantics" = true ∧
      containsStr (unresolvedMsg (stripQuotes s)) "Subpart" = true) ∧
    (∀ m, semanticsFromName (stripQuotes s) = some m →
      to_tag s ctx = .ok (Tag.semanticsTag m)) ∧
    (∀ q, semanticsFromName (stripQuotes s) = none →
      subpartFromName (stripQuotes s) = some q →
      to_tag s ctx = .ok (Tag.subpartTag q)) := by
  rw [to_tag_eq_resolveName s ctx hdash]
  refine ⟨fun h1 h2 => ⟨?_, (unresolvedMsg_names_both (stripQuotes s)).1,
      (unresolvedMsg_names_both (stripQuotes s)).2⟩,
    fun m hm => ?_, fun q h1 hq => ?_⟩
  · simp [resolveName, hctx, h1, h2]
  · simp [resolveName, hctx, hm]
  · simp [resolveName, hctx, h1, hq]

/-- C9 witness: the name "Kitchen" resolves to the Semantics member. -/
theorem c9_vocabulary_lookup_witness :
    to_tag "Kitchen" none = .ok (Tag.semanticsTag .Kitchen) :=
  (c9_vocabulary_lookup "Kitchen" none (by decide) (by decide)).2.1
    .Kitchen (by decide)

/-- C10: for a tag set whose elements nest no `Negated` inside a
`Negated`, `difference(T, T)` returns `T` itself: the positive residual
`p ∪ (n \ n)` is the positive part, the negative residual `n ∪ (p \ p)`
is the negative part, and re-wrapping the negative part reconstructs
exactly the original elements. -/
theorem c10_difference_self (T : Finset Tag)
    (h : ∀ t ∈ T, t.wellFormed = true) :
    ((decompose_tags T).1 ∪ ((decompose_tags T).2 \ (decompose_tags T).2)
        = (decompose_tags T).1) ∧
      ((decompose_tags T).2 ∪ ((decompose_tags T).1 \ (decompose_tags T).1)
        = (decompose_tags T).2) ∧
      difference T T = T := by
  refine ⟨by simp, by simp, ?_⟩
  unfold difference
  simp only [Finset.sdiff_self, Finset.union_empty]
  have key : ((decompose_tags T).2).image Tag.negated
      = T.filter (fun t => t.isNegated = true) := by
    unfold decompose_tags
    rw [Finset.image_image]
    have : ∀ t ∈ T.filter (fun t => t.isNegated = true),
        (Tag.negated ∘ Tag.inner) t = id t := by
      intro t ht
      rcases Finset.mem_filter.mp ht with ⟨_, hneg⟩
      cases t <;> simp_all [Tag.inner, Tag.isNegated]
    rw [Finset.image_congr this, Finset.image_id]
  rw [key]
  unfold decompose_tags
  have hsplit :=
    Finset.filter_union_filter_neg_eq (fun t : Tag => t.isNegated = false) T
  have hconv : T.filter (fun t => ¬ t.isNegated = false)
      = T.filter (fun t => t.isNegated = true) := by
    apply Finset.filter_congr
    intro t _
    simp
  rw [hconv] at hsplit
  exact hsplit

/-- C10 witness: a concrete two-element set with one negated element. -/
theorem c10_difference_self_witness :
    difference
        {Tag.semanticsTag .Kitchen, Tag.negated (Tag.semanticsTag .Bedroom)}
        {Tag.semanticsTag .Kitchen, Tag.negated (Tag.semanticsTag .Bedroom)}
      = {Tag.semanticsTag .Kitchen, Tag.negated (Tag.semanticsTag .Bedroom)} :=
  (c10_difference_self
    {Tag.semanticsTag .Kitchen, Tag.negated (Tag.semanticsTag .Bedroom)}
    (by decide)).2.2

end tags
